import Mathlib

/-!
Shallow embedding of `src/exceptlib.py` (the exceptlib library) and proofs
about it.  Python runtime values are modelled as follows:

* exception classes are `PyExcType`: either a catalogued standard type,
  identified by its name, or a class freshly created at runtime by
  `type(name, (BaseException,), ...)` (the latter are distinct from every
  catalogued class, mirroring object identity of a newly allocated class);
* exception instances are `PyExc`, carrying their class, the implicit
  `context` link, the explicit `cause` link and an optional traceback;
* a traceback is its list of frames in `traceback.walk_tb` order
  (most-recent-call-last), each frame carrying `f_code.co_filename`;
* a module object is `PyModule` (name, optional `__file__`, and the part of
  its namespace relevant to `getattr` lookups of exception names); reading
  and parsing a module's backing source file is modelled by a function
  `sourceOf : PyModule → AstNode` carried in the interpreter state;
* Python strings are `String` (names) or `List Char` (character-level
  reasoning for `random.sample`); exceptions raised by the library itself
  are `PyError` values in an `Except` monad (messages elided).
-/

/-- A Python exception class: a standard (catalogued) class identified by
name, or a class freshly manufactured at runtime.  A `fresh` class is never
equal to a `std` one, mirroring object identity of `type(...)` results. -/
inductive PyExcType where
  | std (name : String)
  | fresh (name : List Char)
deriving DecidableEq, Repr

/-- One traceback frame; `filename` is `frame.f_code.co_filename`. -/
structure Frame where
  filename : String
deriving DecidableEq, Repr

/-- A Python exception instance: its class, the implicit
`__context__` link, the explicit `__cause__` link, and `__traceback__`
(frames in `walk_tb` order, most-recent-call-last). -/
inductive PyExc : Type where
  | mk : PyExcType → Option PyExc → Option PyExc → Option (List Frame) → PyExc
deriving Repr

def PyExc.ty : PyExc → PyExcType
  | .mk t _ _ _ => t

def PyExc.context : PyExc → Option PyExc
  | .mk _ c _ _ => c

def PyExc.cause : PyExc → Option PyExc
  | .mk _ _ c _ => c

def PyExc.tb : PyExc → Option (List Frame)
  | .mk _ _ _ t => t

/-- Exceptions raised by exceptlib's own code paths (messages elided).
`warningRaised` stands for the `raise Warning("bare raise")` statement. -/
inductive PyError where
  | typeError
  | valueError
  | nameError
  | warningRaised
  | runtimeError
  | indexError
deriving DecidableEq, Repr

/-- The module-level tuple `std_excs = standard_exceptions = (...)` of
`exceptlib.py` (the unconditional members; the 3.11+/3.13+ additions are
guarded by try/except in the source and depend on the hosting runtime). -/
def std_exc_names : List String :=
  ["BaseException", "GeneratorExit", "KeyboardInterrupt", "SystemExit",
   "Exception", "ArithmeticError", "FloatingPointError", "OverflowError",
   "ZeroDivisionError", "AssertionError", "AttributeError", "BufferError",
   "EOFError", "ImportError", "ModuleNotFoundError", "LookupError",
   "IndexError", "KeyError", "MemoryError", "NameError",
   "UnboundLocalError", "OSError", "BlockingIOError", "ChildProcessError",
   "ConnectionError", "BrokenPipeError", "ConnectionAbortedError",
   "ConnectionRefusedError", "ConnectionResetError", "FileExistsError",
   "FileNotFoundError", "InterruptedError", "IsADirectoryError",
   "NotADirectoryError", "PermissionError", "ProcessLookupError",
   "TimeoutError", "ReferenceError", "RuntimeError",
   "NotImplementedError", "RecursionError", "StopAsyncIteration",
   "StopIteration", "SyntaxError", "IndentationError", "TabError",
   "SystemError", "TypeError", "ValueError", "UnicodeError",
   "UnicodeDecodeError", "UnicodeEncodeError", "UnicodeTranslateError",
   "Warning", "BytesWarning", "DeprecationWarning", "EncodingWarning",
   "FutureWarning", "ImportWarning", "PendingDeprecationWarning",
   "ResourceWarning", "RuntimeWarning", "SyntaxWarning", "UnicodeWarning",
   "UserWarning"]

/-- The catalogued standard exception classes (`std_excs`). -/
def std_excs : List PyExcType := std_exc_names.map .std

/-- `std_excs_map.get(name)`: name-indexed lookup into the catalog
(`std_excs_map = dict(zip(std_exc_names, std_excs))`).  A `dict.get` with a
`None` key simply misses. -/
def std_excs_map_get (nm : Option String) : Option PyExcType :=
  match nm with
  | none => none
  | some s => if s ∈ std_exc_names then some (.std s) else none

/-- `string.ascii_letters`: the 52-letter alphabetic alphabet. -/
def asciiLetters : List Char :=
  "abcdefghijklmnopqrstuvwxyzABCDEFGHIJKLMNOPQRSTUVWXYZ".toList

/-- `random.sample(pool, k)`: draw `k` elements without replacement.  The
random source is modelled by `idx : Nat → Nat`; at step `n` the element at
position `idx n` modulo the remaining pool size is drawn and removed. -/
def sample : List Char → Nat → (Nat → Nat) → List Char
  | _, 0, _ => []
  | pool, Nat.succ k, idx =>
    if h : 0 < pool.length then
      pool.get ⟨idx 0 % pool.length, Nat.mod_lt _ h⟩ ::
        sample (pool.eraseIdx (idx 0 % pool.length)) k (fun n => idx (n + 1))
    else []

theorem sample_length (k : Nat) : ∀ (pool : List Char) (idx : Nat → Nat),
    k ≤ pool.length → (sample pool k idx).length = k := by
  induction k with
  | zero => intro pool idx _; simp [sample]
  | succ k ih =>
    intro pool idx h
    have hp : 0 < pool.length := Nat.lt_of_lt_of_le (Nat.succ_pos k) h
    have h2 := List.length_eraseIdx (l := pool) (i := idx 0 % pool.length)
    rw [if_pos (Nat.mod_lt _ hp)] at h2
    simp only [sample, dif_pos hp, List.length_cons]
    rw [ih _ _ (by omega)]

theorem sample_mem (k : Nat) : ∀ (pool : List Char) (idx : Nat → Nat),
    ∀ c ∈ sample pool k idx, c ∈ pool := by
  induction k with
  | zero => intro pool idx c hc; simp [sample] at hc
  | succ k ih =>
    intro pool idx c hc
    by_cases hp : 0 < pool.length
    · simp only [sample, dif_pos hp, List.mem_cons] at hc
      rcases hc with h | h
      · subst h; exact List.get_mem _ _ _
      · exact (pool.eraseIdx_subset _) (ih _ _ c h)
    · simp [sample, dif_neg hp] at hc

/-- The class object created by `random_exception`: its `__name__` (as a
character list) and its `__bases__`.  The `**attributes` mapping is not
needed by any claim and is elided. -/
structure NewClass where
  name : List Char
  bases : List PyExcType
deriving DecidableEq, Repr

/-- `random_exception(name=None, **attributes)`: create a fresh
`BaseException` subclass.  `name = name or "".join(sample(ascii_letters, 15))`
treats both `None` and the empty string as absent (Python falsiness); the
class is then built by `type(name, (BaseException,), attributes)`. -/
def random_exception (name : Option (List Char)) (idx : Nat → Nat) : NewClass :=
  let n := match name with
    | some s => if s = [] then sample asciiLetters 15 idx else s
    | none => sample asciiLetters 15 idx
  { name := n, bases := [.std "BaseException"] }

/-- The class created by `type(name, (BaseException,), attributes)` viewed
as an exception-class value: a freshly allocated class object, hence the
`fresh` constructor. -/
def NewClass.toType (c : NewClass) : PyExcType := .fresh c.name

/-- Python expression nodes, restricted to the shapes the library inspects:
`ast.Name`, `ast.Call` with a `Name` function, `ast.Call` with an
`Attribute` function whose value is a `Name` (carrying that value's id),
`ast.Call` with any other function, constants, and tuple displays.  Any
other expression behaves like `const` for the library's purposes. -/
inductive AstExpr where
  | name (id : String)
  | callName (funcId : String)
  | callAttr (valueId : String)
  | callOther
  | const
  | tupleLit (elts : List String)
deriving DecidableEq, Repr

/-- Python statement nodes, restricted to the shapes relevant to scraping.
Expression subtrees are not yielded as separate traversal items (every
non-`Raise` node crashes `get_raised` identically, so only the first
yielded node matters; see `processNodes`). -/
inductive AstNode where
  | module (body : List AstNode)
  | raiseStmt (exc : Option AstExpr)
  | assign (targets : List String) (value : AstExpr)
  | tryStmt (body : List AstNode) (handlers : List AstNode)
  | exceptHandler (htype : Option AstExpr) (hname : Option String) (body : List AstNode)
  | exprStmt (e : AstExpr)
  | other
deriving Repr

/-- `ast.iter_child_nodes` restricted to statement children. -/
def AstNode.childNodes : AstNode → List AstNode
  | .module body => body
  | .tryStmt body handlers => body ++ handlers
  | .exceptHandler _ _ body => body
  | _ => []

mutual
/-- Total number of statement nodes in a tree (fuel bound for `walk`). -/
def AstNode.countNodes : AstNode → Nat
  | .module body => 1 + AstNode.countList body
  | .tryStmt body handlers => 1 + AstNode.countList body + AstNode.countList handlers
  | .exceptHandler _ _ body => 1 + AstNode.countList body
  | _ => 1

def AstNode.countList : List AstNode → Nat
  | [] => 0
  | x :: xs => AstNode.countNodes x + AstNode.countList xs
end

/-- Breadth-first queue step of `ast.walk`; the fuel (total node count)
suffices because each node is dequeued exactly once. -/
def walkGo : Nat → List AstNode → List AstNode
  | 0, _ => []
  | _, [] => []
  | fuel + 1, n :: rest => n :: walkGo fuel (rest ++ n.childNodes)

/-- `ast.walk(root)`: breadth-first traversal, yielding `root` first. -/
def walk (root : AstNode) : List AstNode :=
  walkGo root.countNodes [root]

/-- A module object: `__name__`, `__file__`, and the exception-class
attributes its namespace exposes to `getattr` (non-exception attributes
play no role in the modelled code paths). -/
structure PyModule where
  name : String
  file : Option String
  attrs : List (String × PyExcType)
deriving DecidableEq, Repr

/-- `getattr(module, name, None)`: a `None` attribute name raises
`TypeError` (attribute name must be a string), otherwise the namespace is
consulted. -/
def pyGetattr (m : PyModule) (nm : Option String) : Except PyError (Option PyExcType) :=
  match nm with
  | none => .error .typeError
  | some s => .ok (m.attrs.lookup s)

/-- `id_from_call_or_name_ast(node)`: the name raised or assigned.  A
`Call` with a non-`Name`, non-`Attribute` function yields `None`; node
kinds other than `Call`/`Name` raise `TypeError`. -/
def id_from_call_or_name_ast (e : AstExpr) : Except PyError (Option String) :=
  match e with
  | .name i => .ok (some i)
  | .callName f => .ok (some f)
  | .callAttr v => .ok (some v)
  | .callOther => .ok none
  | _ => .error .typeError

/-- `exc_type_name_from_raise_ast(node)` applied to the `exc` field of an
`ast.Raise` node: `None` for a bare raise, otherwise the raised name. -/
def exc_type_name_from_raise_ast (exc : Option AstExpr) : Except PyError (Option String) :=
  match exc with
  | none => .ok none
  | some e => id_from_call_or_name_ast e

/-- `exc_alias_and_type_name_from_assign_ast(node)`: maps every assignment
target to the assigned name.  Any node that is not an `ast.Assign` raises
`TypeError` — including the `ast.Module` root that `ast.walk` yields first. -/
def exc_alias_and_type_name_from_assign_ast (node : AstNode) :
    Except PyError (Option (List (String × String))) :=
  match node with
  | .assign targets value =>
    match id_from_call_or_name_ast value with
    | .error e => .error e
    | .ok none => .ok none
    | .ok (some excTypeName) => .ok (some (targets.map (fun t => (t, excTypeName))))
  | _ => .error .typeError

/-- An element of the scraped-exceptions set.  `boolItem` exists because
`elif exc_type := std_excs_map.get(...) is not None:` binds the walrus to
the whole comparison, so the code adds the Boolean `True` to the set. -/
inductive PyTupleItem where
  | ty (t : PyExcType)
  | boolItem (b : Bool)
deriving DecidableEq, Repr

/-- `set.add`: insert while keeping elements distinct. -/
def setAdd (s : List PyTupleItem) (x : PyTupleItem) : List PyTupleItem :=
  if x ∈ s then s else s ++ [x]

/-- `dict.update` on the alias cache (association list; updated keys win). -/
def dictUpdate (c u : List (String × String)) : List (String × String) :=
  u.foldl (fun acc kv => acc.filter (fun p => p.1 != kv.1) ++ [kv]) c

/-- The body of `get_raised`'s traversal loop over one module's walked
nodes, carrying the alias cache and the accumulated exception set.  Every
non-`Raise` node is passed to `exc_alias_and_type_name_from_assign_ast`,
which raises `TypeError` unless the node is an `ast.Assign`. -/
def processNodes (m : PyModule) :
    List AstNode → List (String × String) → List PyTupleItem →
      Except PyError (List PyTupleItem)
  | [], _, excs => .ok excs
  | node :: rest, cache, excs =>
    match node with
    | .raiseStmt exc =>
      match exc_type_name_from_raise_ast exc with
      | .error e => .error e
      | .ok nameOpt =>
        match pyGetattr m nameOpt with
        | .error e => .error e
        | .ok (some t) => processNodes m rest cache (setAdd excs (.ty t))
        | .ok none =>
          if (std_excs_map_get nameOpt).isSome then
            processNodes m rest cache (setAdd excs (.boolItem true))
          else .error .warningRaised
    | n =>
      match exc_alias_and_type_name_from_assign_ast n with
      | .error e => .error e
      | .ok d => processNodes m rest (dictUpdate cache (d.getD [])) excs

/-- The outer loop of `get_raised` over the input modules; the scraped set
is shared across modules, the alias cache is reset per module. -/
def get_raised_loop (sourceOf : PyModule → AstNode) :
    List PyModule → List PyTupleItem → Except PyError (List PyTupleItem)
  | [], excs => .ok excs
  | m :: rest, excs =>
    match processNodes m (walk (sourceOf m)) [] excs with
    | .error e => .error e
    | .ok excs2 => get_raised_loop sourceOf rest excs2

/-- `get_raised(*modules)`: reject built-in modules up front with
`ValueError`, then scrape each module's parsed source.  `sourceOf` models
`ast.parse(Path(inspect.getfile(module)).read_text(file_encoding))`. -/
def get_raised (builtins : List String) (sourceOf : PyModule → AstNode)
    (modules : List PyModule) : Except PyError (List PyTupleItem) :=
  if modules.any (fun m => decide (m.name ∈ builtins)) then
    .error .valueError
  else
    get_raised_loop sourceOf modules []

/-- The `__context__` chain hanging off an exception: the exceptions
appended by the loop `while result[-1][1].__context__ is not None` of
`exc_infos`, in visit order. -/
def PyExc.contextChain : PyExc → List PyExc
  | .mk _ none _ _ => []
  | .mk _ (some c) _ _ => c :: c.contextChain

/-- An `exc_info`-style triple `(type, value, traceback)`. -/
abbrev ExcInfo := PyExcType × PyExc × Option (List Frame)

/-- `exc_infos()`: the `sys.exc_info`-like triples of the current
exception's entire `__context__` chain, itself included; empty when no
exception is being handled (`sys.exc_info()[0] is None`). -/
def exc_infos (cur : Option PyExc) : List ExcInfo :=
  match cur with
  | none => []
  | some e => (e.ty, e, e.tb) :: e.contextChain.map (fun c => (c.ty, c, c.tb))

/-- The dict comprehension
`{v.__file__: v for v in sys.modules.values() if hasattr(v, "__file__")}`:
lookup by file path; with duplicate file keys the later module wins. -/
def sysModulesByFile (mods : List PyModule) (fn : String) : Option PyModule :=
  (mods.filter (fun m => decide (m.file = some fn))).getLast?

/-- `get_traceback_modules(exc_traceback)`: map each walked frame's
`co_filename` through the loaded-module file table, silently skipping
frames whose file backs no loaded module.  `traceback.walk_tb(None)`
yields nothing, hence the `Option`. -/
def get_traceback_modules (sysMods : List PyModule) (tb : Option (List Frame)) :
    List PyModule :=
  (tb.getD []).filterMap (fun fr => sysModulesByFile sysMods fr.filename)

/-- A Python object, restricted to the shapes `is_hot_exc_info` can meet
inside a 3-tuple: `None`, an exception class, an exception instance (of
the recorded class), a traceback object, or anything else. -/
inductive PyObj where
  | noneObj
  | cls (t : PyExcType)
  | inst (t : PyExcType)
  | tbObj (frames : List Frame)
  | otherObj
deriving DecidableEq, Repr

/-- `isinstance(x, BaseException)`: true exactly for exception instances
(an exception *class* is an instance of `type`, not of `BaseException`). -/
def pyIsinstanceBaseException (a : PyObj) : Bool :=
  match a with
  | .inst _ => true
  | _ => false

/-- `isinstance(b, a)` for a dynamic second argument: `a` must be a class,
otherwise `TypeError` (isinstance arg 2 must be a type).  Subclass
relations between distinct modelled classes are elided: an instance
matches the exact class it carries. -/
def pyIsinstanceOf (b : PyObj) (a : PyObj) : Except PyError Bool :=
  match a with
  | .cls t => .ok (match b with | .inst t2 => t2 == t | _ => false)
  | _ => .error .typeError

/-- `isinstance(x, TracebackType)`. -/
def pyIsTraceback (c : PyObj) : Bool :=
  match c with
  | .tbObj _ => true
  | _ => false

/-- `is_hot_exc_info(obj)` on a tuple input (non-tuple inputs fail the
first `isinstance(obj, tuple)` test and yield `False` just like tuples of
the wrong length, so the input is modelled as the tuple's element list). -/
def is_hot_exc_info (obj : List PyObj) : Except PyError Bool :=
  match obj with
  | [a, b, c] =>
    if a = .noneObj then .ok false
    else if pyIsinstanceBaseException a then
      match pyIsinstanceOf b a with
      | .error e => .error e
      | .ok r => if r && pyIsTraceback c then .ok true else .ok false
    else .ok false
  | _ => .ok false

/-- The interpreter-level state read by `ExceptionFrom`: the exception
being handled (if any), `sys.modules` in insertion order,
`sys.builtin_module_names`, the filesystem/parser (`sourceOf`), and the
two facts `ExceptionFrom.here` reads about exceptlib's own backing file:
whether `Path(__file__).exists()` and the module object that
`module_from_spec(spec_from_file_location(__name__, __file__))` builds. -/
structure PyState where
  currentExc : Option PyExc
  sysModules : List PyModule
  builtinModuleNames : List String
  sourceOf : PyModule → AstNode
  exceptlibFileExists : Bool
  exceptlibFresh : PyModule

/-- The `involved_modules` accumulation of `ExceptionFrom.__new__`: with
`root_only` (the default) only the modules of the last chain entry's
traceback (`exc_info_chain[-1][-1]`), otherwise the concatenation over
every entry's traceback. -/
def involvedModulesOf (st : PyState) (rootOnly : Bool) (chain : List ExcInfo) :
    List PyModule :=
  match chain with
  | [] => []
  | info :: rest =>
    if rootOnly then
      get_traceback_modules st.sysModules (rest.getLastD info).2.2
    else
      (info :: rest).foldl
        (fun acc i => acc ++ get_traceback_modules st.sysModules i.2.2) []

/-- `ExceptionFrom.__new__(cls, *target_modules, **kwargs)`: empty input
gives an empty tuple; with a current exception the tuple holds one entry
per chain element when a target module is implicated and a single fresh
sentinel class otherwise; with no current exception it delegates to
`get_raised`.  (The `TypeError` guard for non-module arguments is
enforced here by typing.) -/
def ExceptionFrom_new (idx : Nat → Nat) (st : PyState)
    (target_modules : List PyModule) (rootOnly : Bool) :
    Except PyError (List PyTupleItem) :=
  if target_modules.isEmpty then .ok []
  else
    match exc_infos st.currentExc with
    | [] => get_raised st.builtinModuleNames st.sourceOf target_modules
    | info :: rest =>
      if (involvedModulesOf st rootOnly (info :: rest)).any
          (fun m => decide (m ∈ target_modules)) then
        .ok ((info :: rest).map (fun i => .ty i.1))
      else
        .ok [.ty (random_exception none idx).toType]

/-- `ExceptionFrom.here(*, from_file=False)`.  The source resolves
`__file__` and `__name__` of its own defining module — the string
"exceptlib" — so the module containing the call (`caller`) is never
consulted; `globals().get("exceptlib")` misses (a module does not bind
its own name), leaving `sys.modules.get("exceptlib")`. -/
def ExceptionFrom_here (idx : Nat → Nat) (st : PyState) (caller : PyModule)
    (fromFile : Bool) : Except PyError (List PyTupleItem) :=
  if st.exceptlibFileExists = false then .ok []
  else
    match (if fromFile then some st.exceptlibFresh
      else st.sysModules.find? (fun m => m.name == "exceptlib")) with
    | none => .error .nameError
    | some m => ExceptionFrom_new idx st [m] true

/-- A fresh class is distinct from every member of the catalog. -/
theorem fresh_not_mem_std_excs (n : List Char) : PyExcType.fresh n ∉ std_excs := by
  simp [std_excs]

/-- `l.getLast? = some a` puts `a` in `l`. -/
theorem mem_of_getLastQ {α : Type} {l : List α} {a : α}
    (h : l.getLast? = some a) : a ∈ l := by
  rcases List.mem_getLast?_eq_getLast (Option.mem_def.mpr h) with ⟨hn, heq⟩
  rw [heq]
  exact List.getLast_mem hn

/-- Mapping a `filterMap` embeds order-preservingly into mapping the
original list, when the two maps agree wherever the first is defined. -/
theorem filterMap_map_sublist {α β γ : Type} (f : α → Option β) (g : β → γ)
    (h : α → γ) (hfg : ∀ a b, f a = some b → g b = h a) :
    ∀ l : List α, ((l.filterMap f).map g).Sublist (l.map h) := by
  intro l
  induction l with
  | nil => simp
  | cons x xs ih =>
    cases hx : f x with
    | none =>
      simp only [List.filterMap_cons, hx, List.map_cons]
      exact ih.cons _
    | some b =>
      simp only [List.filterMap_cons, hx, List.map_cons]
      rw [hfg x b hx]
      exact ih.cons₂ _

/-- The §8 item 6 fixture, statement for statement: a top-level bare
raise; `raise Exception`; `raise BaseException("bork")`; a bare raise
under an `except TypeError` handler; `raise ImportError` under an
`except IndexError` handler; `raise e` under `except KeyError as e`; the
alias chain `my_exc = ZeroDivisionError` / `my_other_exc = my_exc` with a
raise of each alias. -/
def fixtureAst : AstNode := .module
  [.raiseStmt none,
   .raiseStmt (some (.name "Exception")),
   .raiseStmt (some (.callName "BaseException")),
   .tryStmt [.exprStmt .const]
     [.exceptHandler (some (.name "TypeError")) none [.raiseStmt none]],
   .tryStmt [.exprStmt .const]
     [.exceptHandler (some (.name "IndexError")) none
       [.raiseStmt (some (.name "ImportError"))]],
   .tryStmt [.exprStmt .const]
     [.exceptHandler (some (.name "KeyError")) (some "e")
       [.raiseStmt (some (.name "e"))]],
   .assign ["my_exc"] (.name "ZeroDivisionError"),
   .raiseStmt (some (.name "my_exc")),
   .assign ["my_other_exc"] (.name "my_exc"),
   .raiseStmt (some (.name "my_other_exc"))]

/-- A file-backed, non-built-in module whose source is the fixture. -/
def fixtureModule : PyModule := { name := "dummy", file := some "dummy.py", attrs := [] }

/-- C2: scraping the §8 item 6 fixture does not return the expected
six-type set — `get_raised` raises `TypeError` immediately, because the
first node `ast.walk` yields is the `ast.Module` root and every
non-`Raise` node is fed to `exc_alias_and_type_name_from_assign_ast`,
which rejects anything that is not an `ast.Assign`. -/
theorem get_raised_fixture_crashes :
    get_raised [] (fun _ => fixtureAst) [fixtureModule] = .error .typeError := rfl

/-- C6: the recognizer returns `False` on exactly the triple the runtime
produces while handling an exception (class, instance of it, traceback),
because the code tests `isinstance(obj[0], BaseException)` — instance-hood
of the first slot rather than subclass-hood; and on the shape that test
accepts (first slot an exception *instance*) `isinstance(obj[1], obj[0])`
raises `TypeError`, so no input evaluates to `True`. -/
theorem is_hot_exc_info_real_triple_false :
    is_hot_exc_info [.cls (.std "ValueError"), .inst (.std "ValueError"),
        .tbObj [⟨"app.py"⟩]] = .ok false ∧
      is_hot_exc_info [.inst (.std "ValueError"), .inst (.std "ValueError"),
        .tbObj [⟨"app.py"⟩]] = .error .typeError :=
  ⟨rfl, rfl⟩

/-- C7 counterexample: the empty string is a supplied name the returned
class does not carry — `name or ...` treats it as absent and draws a
random 15-letter name instead, so the name's length is 15, not 0. -/
theorem random_exception_empty_name_counterexample :
    (random_exception (some []) (fun _ => 0)).name.length = 15 ∧
      ([] : List Char).length = 0 := by
  exact ⟨by decide, rfl⟩

/-- C7 (amended): without a name — or with the falsy empty name — the
returned class's name has exactly 15 characters, all drawn from the
52-letter alphabet, and the class lists `BaseException` as its only base;
a supplied non-empty name is kept verbatim. -/
theorem random_exception_spec :
    (∀ idx : Nat → Nat,
      (random_exception none idx).name.length = 15 ∧
        (∀ c ∈ (random_exception none idx).name, c ∈ asciiLetters) ∧
        (random_exception none idx).bases = [.std "BaseException"]) ∧
      ∀ s : List Char, s ≠ [] → ∀ idx : Nat → Nat,
        (random_exception (some s) idx).name = s := by
  constructor
  · intro idx
    refine ⟨?_, ?_, rfl⟩
    · exact sample_length 15 asciiLetters idx (by decide)
    · exact fun c hc => sample_mem 15 asciiLetters idx c hc
  · intro s hs idx
    simp [random_exception, hs]

/-- C7 witness: the amended theorem applied at the concrete name "Foo". -/
theorem random_exception_spec_witness :
    (random_exception (some ['F', 'o', 'o']) (fun _ => 0)).name = ['F', 'o', 'o'] :=
  random_exception_spec.2 ['F', 'o', 'o'] (by decide) (fun _ => 0)

/-- C8: `get_raised` rejects any argument list containing a built-in
module with `ValueError`; the result is this error for every `sourceOf`,
i.e. before any module's source is read or scraped. -/
theorem get_raised_builtin_rejected (builtins : List String)
    (sourceOf : PyModule → AstNode) (modules : List PyModule)
    (h : ∃ m ∈ modules, m.name ∈ builtins) :
    get_raised builtins sourceOf modules = .error .valueError := by
  rcases h with ⟨m, hm, hn⟩
  have hb : modules.any (fun m2 => decide (m2.name ∈ builtins)) = true :=
    List.any_eq_true.mpr ⟨m, hm, decide_eq_true hn⟩
  simp [get_raised, hb]

/-- C8 witness: the theorem applied to the built-in module `sys`. -/
theorem get_raised_builtin_rejected_witness :
    get_raised ["sys"] (fun _ => .module [])
        [{ name := "sys", file := none, attrs := [] }] = .error .valueError :=
  get_raised_builtin_rejected ["sys"] (fun _ => .module [])
    [{ name := "sys", file := none, attrs := [] }]
    ⟨{ name := "sys", file := none, attrs := [] }, by simp, by simp⟩

/-- C9: with zero target modules the facade is the empty tuple, whatever
the active-error state and whatever `root_only` is. -/
theorem ExceptionFrom_new_empty_input (idx : Nat → Nat) (st : PyState)
    (rootOnly : Bool) : ExceptionFrom_new idx st [] rootOnly = .ok [] := rfl

/-- A loaded application module backed by `app.py`. -/
def modApp : PyModule := { name := "app", file := some "app.py", attrs := [] }

/-- A loaded module whose file appears in no traceback below. -/
def modOther : PyModule := { name := "zzz", file := some "zzz.py", attrs := [] }

/-- The root error of a chained scenario: raised in `app.py`. -/
def excRoot : PyExc := .mk (.std "ValueError") none none (some [⟨"app.py"⟩])

/-- The error currently being handled: raised elsewhere while handling
`excRoot` (so its implicit context link points at the root). -/
def excTop : PyExc :=
  .mk (.std "IndexError") (some excRoot) none (some [⟨"elsewhere.py"⟩])

/-- Interpreter state in live mode: `excTop` is being handled and `app`
is the only loaded module. -/
def stLive : PyState :=
  { currentExc := some excTop, sysModules := [modApp],
    builtinModuleNames := [], sourceOf := fun _ => .module [],
    exceptlibFileExists := true, exceptlibFresh := modApp }

/-- C1 counterexample: with a two-error context chain whose root frames
implicate the target module, the live tuple has two elements — one per
chain entry — not exactly one. -/
theorem ExceptionFrom_new_live_two_elements :
    ExceptionFrom_new (fun _ => 0) stLive [modApp] true
        = .ok [.ty (.std "IndexError"), .ty (.std "ValueError")] ∧
      [PyTupleItem.ty (.std "IndexError"), .ty (.std "ValueError")].length = 2 :=
  ⟨rfl, rfl⟩

/-- C1 (amended): in live mode with at least one target module, when some
target module is implicated the tuple holds the error classes of the
whole context chain in order — one element per chain entry, hence exactly
one element only when the active error's context chain is empty. -/
theorem ExceptionFrom_new_live_fires (idx : Nat → Nat) (st : PyState)
    (targets : List PyModule) (rootOnly : Bool) (e : PyExc)
    (h1 : targets ≠ [])
    (h2 : st.currentExc = some e)
    (h3 : (involvedModulesOf st rootOnly (exc_infos (some e))).any
        (fun m => decide (m ∈ targets)) = true) :
    ExceptionFrom_new idx st targets rootOnly
        = .ok ((exc_infos (some e)).map (fun i => .ty i.1)) ∧
      ((exc_infos (some e)).map (fun i => PyTupleItem.ty i.1)).length
        = 1 + e.contextChain.length := by
  rcases targets with _ | ⟨t, ts⟩
  · exact absurd rfl h1
  constructor
  · simp only [exc_infos] at h3 ⊢
    simp only [ExceptionFrom_new, h2, exc_infos]
    rw [if_neg (by simp), if_pos h3]
  · simp [exc_infos, Nat.add_comm]

/-- C1 witness: the amended theorem at the concrete chained state. -/
theorem ExceptionFrom_new_live_fires_witness :
    ExceptionFrom_new (fun _ => 0) stLive [modApp] true
        = .ok ((exc_infos (some excTop)).map (fun i => .ty i.1)) ∧
      ((exc_infos (some excTop)).map (fun i => PyTupleItem.ty i.1)).length
        = 1 + excTop.contextChain.length :=
  ExceptionFrom_new_live_fires (fun _ => 0) stLive [modApp] true excTop
    (by decide) rfl (by decide)

/-- C3: in live mode with target modules supplied and none implicated,
the tuple is exactly one freshly manufactured sentinel class, and that
class is not a member of the standard-exception catalog (so an except
clause guarded by the tuple cannot match the propagating error). -/
theorem ExceptionFrom_new_sentinel (idx : Nat → Nat) (st : PyState)
    (targets : List PyModule) (rootOnly : Bool) (e : PyExc)
    (h1 : targets ≠ [])
    (h2 : st.currentExc = some e)
    (h3 : (involvedModulesOf st rootOnly (exc_infos (some e))).any
        (fun m => decide (m ∈ targets)) = false) :
    ExceptionFrom_new idx st targets rootOnly
        = .ok [.ty (random_exception none idx).toType] ∧
      (random_exception none idx).toType ∉ std_excs := by
  rcases targets with _ | ⟨t, ts⟩
  · exact absurd rfl h1
  constructor
  · simp only [exc_infos] at h3 ⊢
    simp only [ExceptionFrom_new, h2, exc_infos]
    rw [if_neg (by simp), if_neg (by rw [h3]; simp)]
  · exact fresh_not_mem_std_excs _

/-- C3 witness: the sentinel branch at a concrete uninvolved target. -/
theorem ExceptionFrom_new_sentinel_witness :
    ExceptionFrom_new (fun _ => 0) stLive [modOther] true
        = .ok [.ty (random_exception none (fun _ => 0)).toType] :=
  (ExceptionFrom_new_sentinel (fun _ => 0) stLive [modOther] true excTop
    (by decide) rfl (by decide)).1

/-- The module object for exceptlib itself, registered in `sys.modules`. -/
def exceptlibModule : PyModule :=
  { name := "exceptlib", file := some "exceptlib.py", attrs := [] }

/-- A perfectly locatable, file-backed module that calls `here`. -/
def modCaller : PyModule := { name := "app2", file := some "app2.py", attrs := [] }

/-- State for the `here` scenario: no active exception, exceptlib and the
caller both loaded and file-backed. -/
def stHere : PyState :=
  { currentExc := none, sysModules := [exceptlibModule, modCaller],
    builtinModuleNames := [], sourceOf := fun _ => .module [],
    exceptlibFileExists := true, exceptlibFresh := exceptlibModule }

/-- C4: `here` never consults the module containing the call — the result
is identical for every caller — and what it resolves and scrapes is the
module named "exceptlib" (its own defining module), whose scrape then
raises `TypeError`, even though the caller's module is loaded and
file-backed. -/
theorem ExceptionFrom_here_ignores_caller :
    (∀ c : PyModule,
      ExceptionFrom_here (fun _ => 0) stHere c false
        = ExceptionFrom_here (fun _ => 0) stHere modCaller false) ∧
      ExceptionFrom_here (fun _ => 0) stHere modCaller false
          = ExceptionFrom_new (fun _ => 0) stHere [exceptlibModule] true ∧
      ExceptionFrom_here (fun _ => 0) stHere modCaller false = .error .typeError :=
  ⟨fun _ => rfl, rfl, rfl⟩

/-- `chain` is exactly the maximal `__context__` chain hanging below `e`:
each element is the context of its predecessor and the last element has
no context. -/
def IsCtxChain : PyExc → List PyExc → Prop
  | e, [] => e.context = none
  | e, c :: rest => e.context = some c ∧ IsCtxChain c rest

theorem isCtxChain_contextChain (e : PyExc) : IsCtxChain e e.contextChain := by
  match e with
  | .mk ty none cause tb => simp [PyExc.contextChain, IsCtxChain, PyExc.context]
  | .mk ty (some c) cause tb =>
    have ih := isCtxChain_contextChain c
    simp [PyExc.contextChain, IsCtxChain, PyExc.context, ih]

/-- An error carrying an explicit cause but no implicit context (as
produced by `raise ... from ...` outside any handler). -/
def excWithCause : PyExc :=
  .mk (.std "ValueError") none (some (.mk (.std "KeyError") none none none)) none

/-- Transcription of the claim's walking rule: from the starting error
follow the explicit cause ("raised-from") link when present and otherwise
the implicit context ("raised-while-handling") link, stopping when
neither exists.  Declared only to state the refutation below; the source
follows the context link alone. -/
def specCauseContextChain : PyExc → List PyExc
  | .mk _ _ (some c) _ => c :: specCauseContextChain c
  | .mk _ (some c) none _ => c :: specCauseContextChain c
  | .mk _ none none _ => []

/-- C5 counterexample: for an error whose cause is set but whose context
is absent, the code's chain keeps a single error while the claimed
cause-first walk visits two, so the two walks disagree at this input. -/
theorem exc_infos_cause_counterexample :
    (exc_infos (some excWithCause)).length = 1 ∧
      (excWithCause :: specCauseContextChain excWithCause).length = 2 :=
  ⟨rfl, rfl⟩

/-- C5 (amended): `exc_infos` is empty exactly when nothing is being
handled, and otherwise yields the triple of the current exception
followed by the triples of precisely its maximal `__context__` chain,
each triple carrying that error's class and traceback; the explicit
cause link is never followed. -/
theorem exc_infos_context_chain :
    exc_infos none = [] ∧
      ∀ e : PyExc, ∃ chain : List PyExc,
        exc_infos (some e) = (e :: chain).map (fun x => (x.ty, x, x.tb)) ∧
          IsCtxChain e chain :=
  ⟨rfl, fun e => ⟨e.contextChain, by simp [exc_infos], isCtxChain_contextChain e⟩⟩

/-- C10: `get_traceback_modules` is a total function of its inputs; every
returned module is a loaded module whose `__file__` equals some walked
frame's code file path, and the returned file sequence embeds
order-preservingly into the walked frame filename sequence (frames whose
file backs no loaded module are silently skipped). -/
theorem get_traceback_modules_spec (sysMods : List PyModule)
    (tb : Option (List Frame)) :
    (∀ m ∈ get_traceback_modules sysMods tb,
        m ∈ sysMods ∧ ∃ fr ∈ tb.getD [], m.file = some fr.filename) ∧
      ((get_traceback_modules sysMods tb).map PyModule.file).Sublist
        ((tb.getD []).map (fun fr => some fr.filename)) := by
  constructor
  · intro m hm
    rw [get_traceback_modules, List.mem_filterMap] at hm
    rcases hm with ⟨fr, hfr, hlook⟩
    have hmem : m ∈ sysMods.filter (fun m2 => decide (m2.file = some fr.filename)) :=
      mem_of_getLastQ hlook
    rw [List.mem_filter] at hmem
    exact ⟨hmem.1, fr, hfr, by simpa using hmem.2⟩
  · apply filterMap_map_sublist
    intro fr m hfm
    have hmem := mem_of_getLastQ hfm
    rw [List.mem_filter] at hmem
    simpa using hmem.2

/-- C10 witness: the theorem applied at a one-frame traceback resolving
to the one loaded module, specialized to that module's membership. -/
theorem get_traceback_modules_spec_witness :
    modApp ∈ [modApp] :=
  (((get_traceback_modules_spec [modApp] (some [⟨"app.py"⟩])).1 modApp
    (by decide))).1
